import Mathlib

/-! # Cell demo program (`demo/program.cpp`): effect-trace model

The demo program is a sequence of calls into GLFW and into the Cell engine,
driven by a handful of global variables.  It is embedded as pure functions
from the program's globals (and the values the windowing layer hands back) to
the new globals together with the list of calls made, in program order.

Numbers: `double` and `float` values are modelled by `FVal`, with IEEE-754
round-to-nearest-even conversions and arithmetic, so that the implicit
`double -> float` narrowings of the source are visible.

Environment: every GLFW and engine call returns; GLFW runs the registered
callbacks while `glfwPollEvents` executes; a run of the loop is given by the
finite list of the inputs of its iterations, after which
`glfwWindowShouldClose` reports true.
-/

namespace CellDemo

/-! ## Floating point values -/

/-- A `float` or `double` value.  A finite value is stored as an integer count
of units of `2^-1074` (the smallest positive `double`), so every finite
`double` and every finite `float` has exactly one representation.  The sign
of zero is not tracked. -/
inductive FVal where
  | fin (n : Int)
  | inf (neg : Bool)
  | nan
  deriving DecidableEq

/-- One, in units of `2^-1074`. -/
def unit : Nat := 2 ^ 1074

/-- The position of the leading bit of `n`, that is `floor (log2 n)` (and `0`
for `n = 0`), found by binary search over the exponents below `4096`; for
`n ≥ 2^4096`, beyond every overflow threshold used here, the result is
`4095`. -/
def ilog2 (n : Nat) : Nat :=
  [2048, 1024, 512, 256, 128, 64, 32, 16, 8, 4, 2, 1].foldl
    (fun k s => if 2 ^ (k + s) ≤ n then k + s else k) 0

/-- The exponent of the unit in the last place when `num / den` (in units of
`2^-1074`) is rounded to a `p`-bit significand with least unit `2^umin`. -/
def ulpExp (p umin num den : Nat) : Nat := max (ilog2 (num / den) + 1 - p) umin

/-- Round the non-negative rational `num / den` (in units of `2^-1074`) to the
nearest value with a `p`-bit significand and least unit `2^umin`, ties to
even. -/
def roundMag (p umin num den : Nat) : Nat :=
  let u := ulpExp p umin num den
  let d := den * 2 ^ u
  let q := num / d
  let r := num % d
  if d < 2 * r ∨ (2 * r = d ∧ q % 2 = 1) then (q + 1) * 2 ^ u else q * 2 ^ u

/-- Round the rational `num / den` units to a format with `p`-bit significand,
least unit `2^umin` and overflow threshold `2^top` units. -/
def roundTo (p umin top : Nat) (num : Int) (den : Nat) : FVal :=
  let m := roundMag p umin num.natAbs den
  if 2 ^ top ≤ m then FVal.inf (decide (num < 0))
  else FVal.fin (if num < 0 then -(m : Int) else (m : Int))

/-- Round to IEEE binary32 (`float`): 24-bit significand, least unit `2^-149`,
overflow at `2^128`. -/
def round32 (num : Int) (den : Nat) : FVal := roundTo 24 925 1202 num den

/-- Round to IEEE binary64 (`double`): 53-bit significand, least unit
`2^-1074`, overflow at `2^1024`. -/
def round64 (num : Int) (den : Nat) : FVal := roundTo 53 0 2098 num den

/-- The implicit conversion `double -> float`. -/
def toFloat : FVal → FVal
  | FVal.fin n => round32 n 1
  | FVal.inf b => FVal.inf b
  | FVal.nan => FVal.nan

/-- The conversion `(float)i` of an `int`. -/
def intToFloat (i : Int) : FVal := round32 (i * unit) 1

/-- A decimal literal `num / den` of type `float` (`0.1f` is `lit32 1 10`). -/
def lit32 (num : Int) (den : Nat) : FVal := round32 (num * unit) den

/-- A decimal literal `num / den` of type `double`. -/
def lit64 (num : Int) (den : Nat) : FVal := round64 (num * unit) den

/-- The value `m * 2^e` units, that is `m * 2^(e - 1074)`. -/
def dyadic (m : Int) (e : Nat) : FVal := FVal.fin (m * ((2 ^ e : Nat) : Int))

/-- Subtraction `a - b`, the exact difference rounded by `rnd`. -/
def subWith (rnd : Int → Nat → FVal) : FVal → FVal → FVal
  | FVal.fin x, FVal.fin y => rnd (x - y) 1
  | FVal.fin _, FVal.inf b => FVal.inf (!b)
  | FVal.inf a, FVal.fin _ => FVal.inf a
  | FVal.inf a, FVal.inf b => if a = b then FVal.nan else FVal.inf a
  | _, _ => FVal.nan

/-- Subtraction of `float` operands. -/
def sub32 (a b : FVal) : FVal := subWith round32 a b

/-- Subtraction of `double` operands (a `float` operand is promoted, which
changes no value). -/
def sub64 (a b : FVal) : FVal := subWith round64 a b

/-- Multiplication of `double` operands. -/
def mul64 : FVal → FVal → FVal
  | FVal.fin x, FVal.fin y => round64 (x * y) unit
  | FVal.fin x, FVal.inf b => if x = 0 then FVal.nan else FVal.inf (b != decide (x < 0))
  | FVal.inf a, FVal.fin y => if y = 0 then FVal.nan else FVal.inf (a != decide (y < 0))
  | FVal.inf a, FVal.inf b => FVal.inf (a != b)
  | _, _ => FVal.nan

/-- Division `a / b` of `float` operands.  Zero divisors are taken as `+0`. -/
def div32 : FVal → FVal → FVal
  | FVal.fin x, FVal.fin y =>
      if y = 0 then (if x = 0 then FVal.nan else FVal.inf (decide (x < 0)))
      else round32 (x * unit * y.sign) y.natAbs
  | FVal.fin _, FVal.inf _ => FVal.fin 0
  | FVal.inf a, FVal.fin y => FVal.inf (a != decide (y < 0))
  | _, _ => FVal.nan

/-! ## Constants of `GLFW/glfw3.h` and `glad` used by the program -/

def GLFW_RELEASE : Int := 0
def GLFW_PRESS : Int := 1
def GLFW_KEY_A : Int := 65
def GLFW_KEY_D : Int := 68
def GLFW_KEY_E : Int := 69
def GLFW_KEY_Q : Int := 81
def GLFW_KEY_S : Int := 83
def GLFW_KEY_W : Int := 87
def GLFW_KEY_TAB : Int := 258
def GLFW_KEY_RIGHT : Int := 262
def GLFW_KEY_LEFT : Int := 263
def GLFW_KEY_DOWN : Int := 264
def GLFW_KEY_UP : Int := 265
def GLFW_RESIZABLE : Int := 0x00020003
def GLFW_CONTEXT_VERSION_MAJOR : Int := 0x00022002
def GLFW_CONTEXT_VERSION_MINOR : Int := 0x00022003
def GLFW_OPENGL_DEBUG_CONTEXT : Int := 0x00022007
def GLFW_OPENGL_PROFILE : Int := 0x00022008
def GLFW_OPENGL_CORE_PROFILE : Int := 0x00032001
def GLFW_CURSOR : Int := 0x00033001
def GLFW_CURSOR_NORMAL : Int := 0x00034001
def GLFW_CURSOR_DISABLED : Int := 0x00034003
def GL_DEPTH_BUFFER_BIT : Nat := 0x00000100
def GL_COLOR_BUFFER_BIT : Nat := 0x00004000

/-! ## Engine objects the program names -/

/-- A `math::vec3`. -/
structure Vec3 where
  x : FVal
  y : FVal
  z : FVal
  deriving DecidableEq

/-- The directions of `Cell::CAMERA_MOVEMENT` the program uses. -/
inductive CameraMovement where
  | CAMERA_FORWARD | CAMERA_BACK | CAMERA_LEFT | CAMERA_RIGHT | CAMERA_UP | CAMERA_DOWN
  deriving DecidableEq

/-- The scene nodes `main` creates, by the name of the variable holding them. -/
inductive Node where
  | mainTorus | secondTorus | thirdTorus | sphereNode | test | background
  deriving DecidableEq

/-- The basic shapes of `main`. -/
inductive Mesh where
  | plane | sphere | torus | cube
  deriving DecidableEq

/-- The materials of `main`. -/
inductive Material where
  | matPbr | matPbrGlass | backgroundMaterial | customPostProcessing1 | customPostProcessing2
  deriving DecidableEq

/-- The lights of `main`. -/
inductive Light where
  | dirLight | light | light2
  deriving DecidableEq

/-- The five callbacks defined in the program. -/
inductive Callback where
  | framebufferSizeFunc | keyFunc | mousePosFunc | mouseButtonFunc | mouseScrollFunc
  deriving DecidableEq

/-- A rotation axis handed to `SetRotation`: `(1,0,0)`, `(0,1,0)` or
`math::normalize(math::vec3(1,1,1))`. -/
inductive Axis where
  | unitX | unitY | normalizedDiagonal
  deriving DecidableEq

/-- An angle argument: a value in radians, or `math::Deg2Rad` of a number of
degrees (`Deg2Rad` belongs to the engine's math library). -/
inductive Angle where
  | radians (v : FVal)
  | deg2Rad (degrees : FVal)
  deriving DecidableEq

/-- The calls the program makes, and its stores into `keysPressed`. -/
inductive Effect where
  | logMessage (msg : String)
  | glfwInit
  | glfwWindowHint (hint value : Int)
  | glfwCreateWindow (width height : Int) (title : String)
  | glfwTerminate
  | glfwMakeContextCurrent
  | glfwSetInputMode (mode value : Int)
  | glfwSetFramebufferSizeCallback (f : Callback)
  | glfwSetKeyCallback (f : Callback)
  | glfwSetCursorPosCallback (f : Callback)
  | glfwSetMouseButtonCallback (f : Callback)
  | glfwSetScrollCallback (f : Callback)
  | glfwGetFramebufferSize
  | glfwWindowShouldClose
  | glfwPollEvents
  | glfwGetTime
  | glfwSwapBuffers
  | glClear (mask : Nat)
  | cellInit
  | cellNewFrame
  | cellRenderGUI
  | cellClean
  | cellInputKey (key action : Int)
  | cellInputMouse (button action : Int)
  | cellInputScroll (yoffset : FVal)
  | newPlane (xSegments ySegments : Nat)
  | newSphere (xSegments ySegments : Nat)
  | newTorus (r1 r2 : FVal) (numSteps1 numSteps2 : Nat)
  | newCube
  | newBackground
  | rendererSetRenderSize (width height : Int)
  | rendererGetRenderSize
  | rendererSetCamera
  | rendererCreateMaterial (result : Material) (base : Option String)
  | rendererCreatePostProcessingMaterial (result : Material) (shader : String)
  | rendererGetSkypCature
  | rendererAddLight (l : Light)
  | rendererAddIrradianceProbe (position : Vec3) (radius : FVal)
  | rendererBakeProbes
  | rendererPushRender (node : Node)
  | rendererRenderPushedCommands
  | cameraSetPerspective (fov : Angle) (aspect near far : FVal)
  | cameraInputKey (deltaTime : FVal) (direction : CameraMovement)
  | cameraInputMouse (xoffset yoffset : FVal)
  | cameraUpdate (deltaTime : FVal)
  | sceneMakeSceneNode (result : Node) (mesh : Mesh) (material : Material)
  | nodeAddChild (parent child : Node)
  | nodeSetScale (node : Node) (scale : FVal)
  | nodeSetPosition (node : Node) (position : Vec3)
  | nodeSetRotation (node : Node) (axis : Axis) (angle : Angle)
  | backgroundSetCubemap
  | materialSetFloat (m : Material) (name : String) (value : FVal)
  | materialGetShader (m : Material)
  | shaderUse (m : Material)
  | shaderSetFloat (m : Material) (name : String) (value : FVal)
  | resourcesLoadShader (name vsPath fsPath : String)
  | resourcesLoadMesh (name path : String)
  | light2SetPosition (tSin tCos : FVal)
  | keysPressedStore (index : Int) (value : Bool)

open Effect

/-! ## The program's global variables -/

/-- The globals of `program.cpp` that the program itself reads and writes.
`keysPressed` is indexed by the raw `int` subscript; the array proper is the
range `0 ≤ i < 1024`. -/
structure State where
  deltaTime : FVal
  lastFrameTime : FVal
  keysPressed : Int → Bool
  wireframe : Bool
  renderGUI : Bool
  firstMouse : Bool
  lastX : FVal
  lastY : FVal

/-- The initial values of the globals (`keysPressed` has static storage and
starts all `false`). -/
def State.init : State where
  deltaTime := FVal.fin 0
  lastFrameTime := FVal.fin 0
  keysPressed := fun _ => false
  wireframe := false
  renderGUI := false
  firstMouse := true
  lastX := dyadic 640 1074
  lastY := dyadic 360 1074

/-- The assignment `keysPressed[index] = value`. -/
def storeKey (s : State) (index : Int) (value : Bool) : State × List Effect :=
  ({ s with keysPressed := Function.update s.keysPressed index value },
   [keysPressedStore index value])

/-! ## The callbacks -/

/-- The callback `framebufferSizeFunc(window, width, height)`. -/
def framebufferSizeFunc (s : State) (width height : Int) : State × List Effect :=
  (s, [rendererSetRenderSize width height,
       cameraSetPerspective (Angle.deg2Rad (lit32 60 1))
         (div32 (intToFloat width) (intToFloat height)) (lit32 1 10) (lit32 100 1)])

/-- The callback `keyFunc(window, key, scancode, action, mods)`. -/
def keyFunc (s : State) (key _scancode action _mods : Int) : State × List Effect :=
  let r : State × List Effect :=
    if 0 ≤ key ∧ key < 1024 then
      if action = GLFW_PRESS then storeKey s key true
      else if action = GLFW_RELEASE then storeKey s key false
      else (s, [])
    else (s, [])
  (r.1, r.2 ++ [cellInputKey key action])

/-- The callback `mousePosFunc(window, xpos, ypos)`; `xpos` and `ypos` are
`double`, `lastX`, `lastY`, `xoffset` and `yoffset` are `float`. -/
def mousePosFunc (s : State) (xpos ypos : FVal) : State × List Effect :=
  let s1 : State :=
    if s.firstMouse then
      { s with lastX := toFloat xpos, lastY := toFloat ypos, firstMouse := false }
    else s
  let xoffset := toFloat (sub64 xpos s1.lastX)
  let yoffset := toFloat (sub64 s1.lastY ypos)
  let s2 : State := { s1 with lastX := toFloat xpos, lastY := toFloat ypos }
  (s2, if !s2.renderGUI then [cameraInputMouse xoffset yoffset] else [])

/-- The callback `mouseButtonFunc(window, button, action, mods)`. -/
def mouseButtonFunc (s : State) (button action _mods : Int) : State × List Effect :=
  (s, [cellInputMouse button action])

/-- The callback `mouseScrollFunc(window, xoffset, yoffset)`. -/
def mouseScrollFunc (s : State) (_xoffset yoffset : FVal) : State × List Effect :=
  (s, [cellInputScroll yoffset])

/-! ## Events and the frame loop -/

/-- An event GLFW delivers to one of the registered callbacks. -/
inductive Event where
  | framebufferSize (width height : Int)
  | key (key scancode action mods : Int)
  | cursorPos (xpos ypos : FVal)
  | mouseButton (button action mods : Int)
  | scroll (xoffset yoffset : FVal)
  deriving DecidableEq

/-- GLFW invoking the callback registered for an event. -/
def dispatch (s : State) : Event → State × List Effect
  | Event.framebufferSize w h => framebufferSizeFunc s w h
  | Event.key k sc a m => keyFunc s k sc a m
  | Event.cursorPos x y => mousePosFunc s x y
  | Event.mouseButton b a m => mouseButtonFunc s b a m
  | Event.scroll x y => mouseScrollFunc s x y

/-- The callbacks run for the pending events, in order. -/
def dispatchAll (s : State) : List Event → State × List Effect
  | [] => (s, [])
  | e :: es =>
      let r := dispatch s e
      let r2 := dispatchAll r.1 es
      (r2.1, r.2 ++ r2.2)

/-- What the windowing layer hands to one iteration of the loop: the events
pending at `glfwPollEvents` and the values returned by the seven
`glfwGetTime` calls of the iteration, in order. -/
structure FrameInput where
  events : List Event
  time : FVal
  tMainTorus : FVal
  tSecondTorus : FVal
  tThirdTorus : FVal
  tSphereNode : FVal
  tLightSin : FVal
  tLightCos : FVal

/-- The calls `camera.InputKey(deltaTime, ...)` of one frame. -/
def cameraKeys (keys : Int → Bool) (dt : FVal) : List Effect :=
  (if keys GLFW_KEY_W || keys GLFW_KEY_UP then
    [cameraInputKey dt CameraMovement.CAMERA_FORWARD] else []) ++
  (if keys GLFW_KEY_S || keys GLFW_KEY_DOWN then
    [cameraInputKey dt CameraMovement.CAMERA_BACK] else []) ++
  (if keys GLFW_KEY_A || keys GLFW_KEY_LEFT then
    [cameraInputKey dt CameraMovement.CAMERA_LEFT] else []) ++
  (if keys GLFW_KEY_D || keys GLFW_KEY_RIGHT then
    [cameraInputKey dt CameraMovement.CAMERA_RIGHT] else []) ++
  (if keys GLFW_KEY_E then [cameraInputKey dt CameraMovement.CAMERA_UP] else []) ++
  (if keys GLFW_KEY_Q then [cameraInputKey dt CameraMovement.CAMERA_DOWN] else [])

/-- The scene animation of one frame: the four `SetRotation` calls and the
assignment of `light2.Position`, each preceded by its `glfwGetTime` calls. -/
def animate (inp : FrameInput) : List Effect :=
  [glfwGetTime,
   nodeSetRotation Node.mainTorus Axis.unitX
     (Angle.radians (mul64 inp.tMainTorus (lit64 2 1))),
   glfwGetTime,
   nodeSetRotation Node.secondTorus Axis.unitY
     (Angle.radians (mul64 inp.tSecondTorus (lit64 3 1))),
   glfwGetTime,
   nodeSetRotation Node.thirdTorus Axis.unitY
     (Angle.radians (mul64 inp.tThirdTorus (lit64 4 1))),
   glfwGetTime,
   nodeSetRotation Node.sphereNode Axis.normalizedDiagonal (Angle.radians inp.tSphereNode),
   glfwGetTime, glfwGetTime,
   light2SetPosition inp.tLightSin inp.tLightCos]

/-- The three `PushRender` calls of one frame. -/
def pushCommands : List Effect :=
  [rendererPushRender Node.mainTorus, rendererPushRender Node.test,
   rendererPushRender Node.background]

/-- The GUI step of one frame. -/
def guiStep (renderGUI : Bool) : List Effect :=
  if renderGUI then [glfwSetInputMode GLFW_CURSOR GLFW_CURSOR_NORMAL, cellRenderGUI]
  else [glfwSetInputMode GLFW_CURSOR GLFW_CURSOR_DISABLED]

/-- One iteration of the body of the `while` loop of `main`. -/
def frame (s : State) (inp : FrameInput) : State × List Effect :=
  let polled := dispatchAll s inp.events
  let s1 := polled.1
  let currentFrameTime := toFloat inp.time
  let s2 : State :=
    { s1 with deltaTime := sub32 currentFrameTime s1.lastFrameTime,
              lastFrameTime := currentFrameTime }
  let moves := cameraKeys s2.keysPressed s2.deltaTime
  let s3 : State :=
    if s2.keysPressed GLFW_KEY_TAB then { s2 with renderGUI := !s2.renderGUI } else s2
  (s3,
   [glfwPollEvents] ++ polled.2 ++
   [cellNewFrame, glClear (GL_COLOR_BUFFER_BIT ||| GL_DEPTH_BUFFER_BIT), glfwGetTime] ++
   moves ++
   [cameraUpdate s3.deltaTime] ++
   animate inp ++
   pushCommands ++
   [rendererRenderPushedCommands] ++
   guiStep s3.renderGUI ++
   [glfwSwapBuffers])

/-- The `while (!glfwWindowShouldClose(window))` loop: one iteration per
element of `frames`, after which `glfwWindowShouldClose` returns true. -/
def runLoop (s : State) : List FrameInput → State × List Effect
  | [] => (s, [glfwWindowShouldClose])
  | inp :: rest =>
      let r := frame s inp
      let r2 := runLoop r.1 rest
      (r2.1, [glfwWindowShouldClose] ++ r.2 ++ r2.2)

/-! ## `main` -/

/-- What the environment decides during a run of `main`: whether
`glfwCreateWindow` returns a window, the framebuffer size reported by
`glfwGetFramebufferSize`, the components read from the two
`GetRenderSize()` calls, and the inputs of the iterations of the loop made
before the window is closed. -/
structure Env where
  windowCreated : Bool
  framebufferWidth : Int
  framebufferHeight : Int
  renderSizeX : FVal
  renderSizeY : FVal
  frames : List FrameInput

/-- The calls of `main` up to and including `glfwCreateWindow`. -/
def initGLFW : List Effect :=
  [logMessage "Initializing GLFW",
   glfwInit,
   glfwWindowHint GLFW_CONTEXT_VERSION_MAJOR 4,
   glfwWindowHint GLFW_CONTEXT_VERSION_MINOR 3,
   glfwWindowHint GLFW_OPENGL_PROFILE GLFW_OPENGL_CORE_PROFILE,
   glfwWindowHint GLFW_OPENGL_DEBUG_CONTEXT 1,
   glfwWindowHint GLFW_RESIZABLE 1,
   glfwCreateWindow 1280 720 "Cell"]

/-- The calls of `main` from `glfwMakeContextCurrent` to the end of the
renderer initialisation. -/
def initWindow (env : Env) : List Effect :=
  [glfwMakeContextCurrent,
   glfwSetInputMode GLFW_CURSOR GLFW_CURSOR_DISABLED,
   glfwSetFramebufferSizeCallback Callback.framebufferSizeFunc,
   glfwSetKeyCallback Callback.keyFunc,
   glfwSetCursorPosCallback Callback.mousePosFunc,
   glfwSetMouseButtonCallback Callback.mouseButtonFunc,
   glfwSetScrollCallback Callback.mouseScrollFunc,
   glfwGetFramebufferSize,
   logMessage "GLFW initialized",
   logMessage "Initializing render system",
   cellInit,
   rendererSetRenderSize env.framebufferWidth env.framebufferHeight,
   rendererSetCamera,
   logMessage "Render system initialized"]

/-- The calls of `main` that build the scene: shapes, materials, camera
projection, scene nodes, background, post-processing shaders and the sponza
mesh. -/
def buildScene (env : Env) : List Effect :=
  [newPlane 16 16,
   newSphere 64 64,
   newTorus (lit32 2 1) (lit32 4 10) 32 32,
   newCube,
   rendererCreateMaterial Material.matPbr none,
   rendererCreateMaterial Material.matPbrGlass (some "glass"),
   rendererGetRenderSize,
   rendererGetRenderSize,
   cameraSetPerspective (Angle.deg2Rad (lit32 60 1))
     (div32 env.renderSizeX env.renderSizeY) (lit32 1 10) (lit32 100 1),
   sceneMakeSceneNode Node.mainTorus Mesh.torus Material.matPbr,
   sceneMakeSceneNode Node.secondTorus Mesh.torus Material.matPbr,
   sceneMakeSceneNode Node.thirdTorus Mesh.torus Material.matPbr,
   sceneMakeSceneNode Node.sphereNode Mesh.sphere Material.matPbrGlass,
   nodeAddChild Node.mainTorus Node.secondTorus,
   nodeAddChild Node.secondTorus Node.thirdTorus,
   nodeAddChild Node.thirdTorus Node.sphereNode,
   nodeSetScale Node.mainTorus (lit32 1 1),
   nodeSetPosition Node.mainTorus ⟨lit32 0 1, lit32 25 10, lit32 0 1⟩,
   nodeSetScale Node.secondTorus (lit32 65 100),
   nodeSetRotation Node.secondTorus Axis.unitY (Angle.deg2Rad (lit64 90 1)),
   nodeSetScale Node.thirdTorus (lit32 65 100),
   nodeSetScale Node.sphereNode (lit32 135 100),
   newBackground,
   rendererGetSkypCature,
   backgroundSetCubemap,
   materialSetFloat Material.backgroundMaterial "lodLevel" (lit32 15 10),
   materialSetFloat Material.backgroundMaterial "Exposure" (toFloat (lit64 1 1)),
   materialGetShader Material.matPbr,
   shaderUse Material.matPbr,
   materialGetShader Material.matPbr,
   shaderSetFloat Material.matPbr "Exposure" (toFloat (lit64 1 1)),
   resourcesLoadShader "postprocessing1" "shaders/screen_quad.vs" "shaders/custom_post_1.fs",
   resourcesLoadShader "postprocessing2" "shaders/screen_quad.vs" "shaders/custom_post_2.fs",
   rendererCreatePostProcessingMaterial Material.customPostProcessing1 "postprocessing1",
   rendererCreatePostProcessingMaterial Material.customPostProcessing2 "postprocessing2",
   resourcesLoadMesh "sponza" "meshes/sponza/sponza.obj",
   nodeSetPosition Node.test ⟨lit64 0 1, lit64 (-1) 1, lit64 0 1⟩,
   nodeSetScale Node.test (lit32 1 100)]

/-- The three `AddLight` calls of `main`. -/
def addLights : List Effect :=
  [rendererAddLight Light.dirLight, rendererAddLight Light.light,
   rendererAddLight Light.light2]

/-- One row of the probe grid: position in tenths, radius in hundredths. -/
def probe (x y z r : Int) : Vec3 × FVal :=
  (⟨lit32 x 10, lit32 y 10, lit32 z 10⟩, lit64 r 100)

/-- The positions and radii of the `AddIrradianceProbe` calls of `main`, in
program order. -/
def probeGrid : List (Vec3 × FVal) :=
  [ -- bottom floor - center
    probe 0 5 (-5) 325, probe 30 5 (-5) 325, probe 60 5 (-5) 325,
    probe 85 5 (-5) 325, probe 114 5 (-5) 425, probe (-30) 5 (-5) 325,
    probe (-62) 5 (-5) 325, probe (-95) 5 (-5) 325, probe (-121) 5 (-5) 425,
    -- bottom floor - left wing
    probe 0 5 40 400, probe 40 5 40 400, probe 80 5 40 400, probe 120 5 40 400,
    probe (-40) 5 40 400, probe (-80) 5 40 400, probe (-120) 5 40 400,
    -- bottom floor - right wing
    probe 0 5 (-45) 400, probe 40 5 (-45) 400, probe 80 5 (-45) 400,
    probe 120 5 (-45) 400, probe (-40) 5 (-45) 400, probe (-80) 5 (-45) 400,
    probe (-120) 5 (-45) 400,
    -- 1st floor - center wing
    probe 0 50 (-5) 450, probe 40 50 (-5) 400, probe 80 50 (-5) 450,
    probe 120 50 (-5) 450, probe (-40) 50 (-5) 450, probe (-80) 50 (-5) 400,
    probe (-120) 50 (-5) 450,
    -- 1st floor - left wing
    probe 0 50 40 400, probe 40 50 40 400, probe 80 50 40 400, probe 120 50 40 400,
    probe (-40) 50 40 400, probe (-80) 50 40 400, probe (-115) 50 40 400,
    -- 1st floor - right wing
    probe 0 50 (-45) 400, probe 40 50 (-45) 400, probe 80 50 (-45) 400,
    probe 120 50 (-45) 400, probe (-40) 50 (-45) 400, probe (-80) 50 (-45) 400,
    probe (-115) 50 (-45) 400,
    -- 2nd floor - center wing
    probe 0 95 (-5) 450, probe 40 95 (-5) 450, probe 80 95 (-5) 450,
    probe 120 95 (-5) 450, probe (-40) 95 (-5) 450, probe (-80) 95 (-5) 450,
    probe (-115) 95 (-5) 450 ]

/-- The `AddIrradianceProbe` calls followed by `BakeProbes`. -/
def bakeIrradiance : List Effect :=
  probeGrid.map (fun p => rendererAddIrradianceProbe p.1 p.2) ++ [rendererBakeProbes]

/-- Everything `main` does after a successful window creation and before the
loop. -/
def setup (env : Env) : List Effect :=
  initWindow env ++ buildScene env ++ addLights ++ bakeIrradiance

/-- The function `main`: its return value and the calls it makes. -/
def main (env : Env) : Int × List Effect :=
  if env.windowCreated then
    (0, initGLFW ++ setup env ++ (runLoop State.init env.frames).2 ++
      [cellClean, glfwTerminate])
  else
    (-1, initGLFW ++ [glfwTerminate])

/-! ## Sample inputs -/

/-- A frame in which TAB is pressed and the cursor moves. -/
def sampleFrame : FrameInput where
  events := [Event.key GLFW_KEY_TAB 15 GLFW_PRESS 0,
             Event.cursorPos (dyadic 100 1074) (dyadic 100 1074)]
  time := dyadic 1 1073
  tMainTorus := dyadic 1 1073
  tSecondTorus := dyadic 1 1073
  tThirdTorus := dyadic 1 1073
  tSphereNode := dyadic 1 1073
  tLightSin := dyadic 1 1073
  tLightCos := dyadic 1 1073

/-- A run in which the window is created with a 1280 x 720 framebuffer and
closed after one frame. -/
def sampleEnv : Env where
  windowCreated := true
  framebufferWidth := 1280
  framebufferHeight := 720
  renderSizeX := dyadic 1280 1074
  renderSizeY := dyadic 720 1074
  frames := [sampleFrame]

/-- A run in which `glfwCreateWindow` fails. -/
def sampleEnvNoWindow : Env where
  windowCreated := false
  framebufferWidth := 0
  framebufferHeight := 0
  renderSizeX := FVal.fin 0
  renderSizeY := FVal.fin 0
  frames := [sampleFrame]

/-- The globals after a first cursor event at `(100, 100)`. -/
def sampleMoved : State := (mousePosFunc State.init (dyadic 100 1074) (dyadic 100 1074)).1

/-! ## Classifications of calls used to state the properties -/

/-- The calls that register a callback with GLFW. -/
def isCallbackRegistration : Effect → Bool
  | glfwSetFramebufferSizeCallback _ => true
  | glfwSetKeyCallback _ => true
  | glfwSetCursorPosCallback _ => true
  | glfwSetMouseButtonCallback _ => true
  | glfwSetScrollCallback _ => true
  | _ => false

/-- The calls that only occur in the loop: its condition and the first and
last call of its body. -/
def isLoopCall : Effect → Bool
  | glfwWindowShouldClose => true
  | glfwPollEvents => true
  | glfwSwapBuffers => true
  | _ => false

/-- The calls `PushRender`, `RenderPushedCommands` and `glfwSwapBuffers`. -/
def isRenderCall : Effect → Bool
  | rendererPushRender _ => true
  | rendererRenderPushedCommands => true
  | glfwSwapBuffers => true
  | _ => false

/-- The stores into `keysPressed`. -/
def isKeyStore : Effect → Bool
  | keysPressedStore _ _ => true
  | _ => false

/-- The calls that mark the phases of a frame: `glfwPollEvents`,
`camera.InputKey`, `camera.Update`, `PushRender` and `glfwSwapBuffers`. -/
def isPhaseCall : Effect → Bool
  | glfwPollEvents => true
  | cameraInputKey _ _ => true
  | cameraUpdate _ => true
  | rendererPushRender _ => true
  | glfwSwapBuffers => true
  | _ => false

/-- The calls `AddLight`, `AddIrradianceProbe` and `BakeProbes`. -/
def isLightingCall : Effect → Bool
  | rendererAddLight _ => true
  | rendererAddIrradianceProbe _ _ => true
  | rendererBakeProbes => true
  | _ => false

/-- The calls that set the cursor mode or draw the GUI. -/
def isGuiCall : Effect → Bool
  | glfwSetInputMode _ _ => true
  | cellRenderGUI => true
  | _ => false

/-- The calls `camera.SetPerspective`. -/
def isPerspectiveCall : Effect → Bool
  | cameraSetPerspective _ _ _ _ => true
  | _ => false

/-- The calls a callback can make, and its stores into `keysPressed`. -/
def isCallbackEffect : Effect → Bool
  | rendererSetRenderSize _ _ => true
  | cameraSetPerspective _ _ _ _ => true
  | keysPressedStore _ _ => true
  | cellInputKey _ _ => true
  | cameraInputMouse _ _ => true
  | cellInputMouse _ _ => true
  | cellInputScroll _ => true
  | _ => false


/-! ## Lemmas on the callbacks and the frame -/

set_option exponentiation.threshold 5000

theorem dispatch_effects (s : State) (ev : Event) :
    ∀ e ∈ (dispatch s ev).2, isCallbackEffect e = true := by
  cases ev with
  | framebufferSize w h => simp [dispatch, framebufferSizeFunc, isCallbackEffect]
  | key k sc a m =>
      simp only [dispatch, keyFunc, storeKey]
      split_ifs <;> simp [isCallbackEffect]
  | cursorPos x y =>
      simp only [dispatch, mousePosFunc]
      split_ifs <;> simp [isCallbackEffect]
  | mouseButton b a m => simp [dispatch, mouseButtonFunc, isCallbackEffect]
  | scroll x y => simp [dispatch, mouseScrollFunc, isCallbackEffect]

theorem dispatchAll_effects (evs : List Event) :
    ∀ (s : State), ∀ e ∈ (dispatchAll s evs).2, isCallbackEffect e = true := by
  induction evs with
  | nil => intro s e he; simp [dispatchAll] at he
  | cons ev rest ih =>
      intro s e he
      simp only [dispatchAll, List.mem_append] at he
      rcases he with he | he
      · exact dispatch_effects s ev e he
      · exact ih _ e he

theorem dispatch_globals (s : State) (ev : Event) :
    (dispatch s ev).1.lastFrameTime = s.lastFrameTime ∧
    (dispatch s ev).1.deltaTime = s.deltaTime ∧
    (dispatch s ev).1.renderGUI = s.renderGUI := by
  cases ev with
  | framebufferSize w h => simp [dispatch, framebufferSizeFunc]
  | key k sc a m =>
      simp only [dispatch, keyFunc, storeKey]
      split_ifs <;> simp
  | cursorPos x y =>
      simp only [dispatch, mousePosFunc]
      split_ifs <;> simp
  | mouseButton b a m => simp [dispatch, mouseButtonFunc]
  | scroll x y => simp [dispatch, mouseScrollFunc]

theorem dispatchAll_globals (evs : List Event) :
    ∀ (s : State), (dispatchAll s evs).1.lastFrameTime = s.lastFrameTime ∧
      (dispatchAll s evs).1.deltaTime = s.deltaTime ∧
      (dispatchAll s evs).1.renderGUI = s.renderGUI := by
  induction evs with
  | nil => intro s; simp [dispatchAll]
  | cons ev rest ih =>
      intro s
      obtain ⟨h1, h2, h3⟩ := ih (dispatch s ev).1
      obtain ⟨g1, g2, g3⟩ := dispatch_globals s ev
      simp only [dispatchAll]
      exact ⟨h1.trans g1, h2.trans g2, h3.trans g3⟩

/-- Filtering the calls of the callbacks by a predicate that holds of no
callback effect leaves nothing. -/
theorem filter_dispatchAll (p : Effect → Bool)
    (hp : ∀ e, isCallbackEffect e = true → p e = false) (s : State) (evs : List Event) :
    (dispatchAll s evs).2.filter p = [] := by
  rw [List.filter_eq_nil_iff]
  intro e he
  simp [hp e (dispatchAll_effects evs s e he)]

theorem callback_not_render : ∀ e, isCallbackEffect e = true → isRenderCall e = false := by
  intro e; cases e <;> simp [isCallbackEffect, isRenderCall]

theorem callback_not_phase : ∀ e, isCallbackEffect e = true → isPhaseCall e = false := by
  intro e; cases e <;> simp [isCallbackEffect, isPhaseCall]

theorem callback_not_lighting :
    ∀ e, isCallbackEffect e = true → isLightingCall e = false := by
  intro e; cases e <;> simp [isCallbackEffect, isLightingCall]

theorem callback_not_gui : ∀ e, isCallbackEffect e = true → isGuiCall e = false := by
  intro e; cases e <;> simp [isCallbackEffect, isGuiCall]

theorem filter_cameraKeys_render (keys : Int → Bool) (dt : FVal) :
    (cameraKeys keys dt).filter isRenderCall = [] := by
  rw [List.filter_eq_nil_iff]
  intro e he
  simp only [cameraKeys, List.mem_append] at he
  rcases he with ((((he | he) | he) | he) | he) | he <;>
    split_ifs at he <;> simp at he <;> simp [he, isRenderCall]

theorem filter_cameraKeys_phase (keys : Int → Bool) (dt : FVal) :
    (cameraKeys keys dt).filter isPhaseCall = cameraKeys keys dt := by
  rw [List.filter_eq_self]
  intro e he
  simp only [cameraKeys, List.mem_append] at he
  rcases he with ((((he | he) | he) | he) | he) | he <;>
    split_ifs at he <;> simp at he <;> simp [he, isPhaseCall]

theorem filter_cameraKeys_lighting (keys : Int → Bool) (dt : FVal) :
    (cameraKeys keys dt).filter isLightingCall = [] := by
  rw [List.filter_eq_nil_iff]
  intro e he
  simp only [cameraKeys, List.mem_append] at he
  rcases he with ((((he | he) | he) | he) | he) | he <;>
    split_ifs at he <;> simp at he <;> simp [he, isLightingCall]

theorem filter_cameraKeys_gui (keys : Int → Bool) (dt : FVal) :
    (cameraKeys keys dt).filter isGuiCall = [] := by
  rw [List.filter_eq_nil_iff]
  intro e he
  simp only [cameraKeys, List.mem_append] at he
  rcases he with ((((he | he) | he) | he) | he) | he <;>
    split_ifs at he <;> simp at he <;> simp [he, isGuiCall]

theorem cameraKeys_args (keys : Int → Bool) (dt : FVal) :
    ∀ e ∈ cameraKeys keys dt, ∃ d, e = cameraInputKey dt d := by
  intro e he
  simp only [cameraKeys, List.mem_append] at he
  rcases he with ((((he | he) | he) | he) | he) | he <;>
    split_ifs at he <;> simp at he <;> exact ⟨_, he⟩

theorem filter_guiStep_render (b : Bool) : (guiStep b).filter isRenderCall = [] := by
  cases b <;> simp [guiStep, isRenderCall]

theorem filter_guiStep_phase (b : Bool) : (guiStep b).filter isPhaseCall = [] := by
  cases b <;> simp [guiStep, isPhaseCall]

theorem filter_guiStep_lighting (b : Bool) : (guiStep b).filter isLightingCall = [] := by
  cases b <;> simp [guiStep, isLightingCall]

/-- The calls of one frame, kept to those satisfying `p`, phase by phase. -/
theorem filter_frame (p : Effect → Bool) (s : State) (inp : FrameInput) :
    (frame s inp).2.filter p =
      [glfwPollEvents].filter p ++ (dispatchAll s inp.events).2.filter p ++
      [cellNewFrame, glClear (GL_COLOR_BUFFER_BIT ||| GL_DEPTH_BUFFER_BIT),
        glfwGetTime].filter p ++
      (cameraKeys (frame s inp).1.keysPressed (frame s inp).1.deltaTime).filter p ++
      [cameraUpdate (frame s inp).1.deltaTime].filter p ++
      (animate inp).filter p ++ pushCommands.filter p ++
      [rendererRenderPushedCommands].filter p ++
      (guiStep (frame s inp).1.renderGUI).filter p ++ [glfwSwapBuffers].filter p := by
  simp only [frame, List.filter_append]
  split_ifs <;> rfl

/-- C2: in every iteration of the frame loop the renderer receives exactly
three `PushRender` calls, for `mainTorus`, `test` and `background` in that
order, immediately followed by exactly one `RenderPushedCommands`; no
`PushRender` follows it in the frame, and `glfwSwapBuffers` comes after it. -/
theorem frame_push_then_render (s : State) (inp : FrameInput) :
    (frame s inp).2.filter isRenderCall =
      [rendererPushRender Node.mainTorus, rendererPushRender Node.test,
       rendererPushRender Node.background, rendererRenderPushedCommands,
       glfwSwapBuffers] ∧
    ∃ pre post, (frame s inp).2 =
        pre ++ [rendererPushRender Node.mainTorus, rendererPushRender Node.test,
          rendererPushRender Node.background, rendererRenderPushedCommands] ++ post ∧
      pre.filter isRenderCall = [] ∧ post.filter isRenderCall = [glfwSwapBuffers] := by
  have hcb := filter_dispatchAll isRenderCall callback_not_render s inp.events
  refine ⟨?_, ?_⟩
  · rw [filter_frame, hcb, filter_cameraKeys_render, filter_guiStep_render]
    simp [animate, pushCommands, isRenderCall]
  · refine ⟨[glfwPollEvents] ++ (dispatchAll s inp.events).2 ++
        [cellNewFrame, glClear (GL_COLOR_BUFFER_BIT ||| GL_DEPTH_BUFFER_BIT), glfwGetTime] ++
        cameraKeys (frame s inp).1.keysPressed (frame s inp).1.deltaTime ++
        [cameraUpdate (frame s inp).1.deltaTime] ++ animate inp,
      guiStep (frame s inp).1.renderGUI ++ [glfwSwapBuffers], ?_, ?_, ?_⟩
    · simp only [frame, pushCommands, List.append_assoc, List.cons_append, List.nil_append]
      split_ifs <;> rfl
    · simp only [List.filter_append, hcb, filter_cameraKeys_render]
      simp [animate, isRenderCall]
    · simp only [List.filter_append, filter_guiStep_render]
      simp [isRenderCall]

theorem runLoop_effects (p : Effect → Bool)
    (hloop : p glfwWindowShouldClose = false)
    (hframe : ∀ s inp, (frame s inp).2.filter p = [])
    (frames : List FrameInput) :
    ∀ s : State, (runLoop s frames).2.filter p = [] := by
  induction frames with
  | nil => intro s; simp [runLoop, hloop]
  | cons inp rest ih =>
      intro s
      simp only [runLoop, List.filter_append, ih, hframe]
      simp [hloop]

theorem filter_frame_lighting (s : State) (inp : FrameInput) :
    (frame s inp).2.filter isLightingCall = [] := by
  rw [filter_frame, filter_dispatchAll isLightingCall callback_not_lighting,
    filter_cameraKeys_lighting, filter_guiStep_lighting]
  simp [animate, pushCommands, isLightingCall]

theorem filter_runLoop_lighting (s : State) (frames : List FrameInput) :
    (runLoop s frames).2.filter isLightingCall = [] :=
  runLoop_effects isLightingCall rfl filter_frame_lighting frames s

theorem filter_probes_lighting (l : List (Vec3 × FVal)) :
    (l.map (fun p => rendererAddIrradianceProbe p.1 p.2)).filter isLightingCall =
      l.map (fun p => rendererAddIrradianceProbe p.1 p.2) := by
  rw [List.filter_eq_self]
  intro e he
  obtain ⟨p, _, rfl⟩ := List.mem_map.mp he
  rfl

/-- C1: when `glfwCreateWindow` returns null, `main` returns `-1`, which is
nonzero, after the calls of the GLFW initialisation followed by
`glfwTerminate` and nothing else: no `Cell::Init`, no callback registration,
no call of the loop.  When the window is created, `main` returns `0`. -/
theorem main_window_failure (env : Env) :
    (env.windowCreated = false →
      (main env).1 = -1 ∧ (main env).1 ≠ 0 ∧
      (main env).2 = initGLFW ++ [glfwTerminate] ∧
      (main env).2.getLast? = some glfwTerminate ∧
      cellInit ∉ (main env).2 ∧
      (main env).2.filter isCallbackRegistration = [] ∧
      (main env).2.filter isLoopCall = []) ∧
    (env.windowCreated = true → (main env).1 = 0) := by
  constructor
  · intro h
    simp [main, h, initGLFW, isCallbackRegistration, isLoopCall]
  · intro h
    simp [main, h]

/-- C3: `keyFunc` makes exactly one engine call, `Cell::InputKey(key, action)`,
as its last step, for every key and action; `mouseButtonFunc` makes exactly
the call `Cell::InputMouse(button, action)` and `mouseScrollFunc` exactly the
call `Cell::InputScroll(yoffset)`, whatever their arguments. -/
theorem callbacks_forward_input (s : State) :
    (∀ key scancode action mods : Int,
      (keyFunc s key scancode action mods).2.filter (fun e => !isKeyStore e) =
        [cellInputKey key action] ∧
      (keyFunc s key scancode action mods).2.getLast? = some (cellInputKey key action)) ∧
    (∀ button action mods : Int,
      (mouseButtonFunc s button action mods).2 = [cellInputMouse button action]) ∧
    (∀ xoffset yoffset : FVal,
      (mouseScrollFunc s xoffset yoffset).2 = [cellInputScroll yoffset]) := by
  refine ⟨?_, ?_, ?_⟩
  · intro key scancode action mods
    simp only [keyFunc, storeKey]
    split_ifs <;> simp [isKeyStore]
  · intro button action mods; rfl
  · intro xoffset yoffset; rfl

/-- C4: every frame starts with `glfwPollEvents` and ends with
`glfwSwapBuffers`; in between, the `camera.InputKey` calls, then the single
`camera.Update`, then the three `PushRender` calls occur in that order, all
camera calls taking the frame's `deltaTime`.  That `deltaTime` is the time
sampled in this frame minus `lastFrameTime` as it was before the frame, and
`lastFrameTime` is the sampled time afterwards; so across two consecutive
frames it is the difference of the two samples, and `lastFrameTime` starts
at `0`. -/
theorem frame_poll_update_render (s : State) (inp : FrameInput) :
    (frame s inp).2.head? = some glfwPollEvents ∧
    (frame s inp).2.getLast? = some glfwSwapBuffers ∧
    (∃ moves, (∀ e ∈ moves, ∃ d, e = cameraInputKey (frame s inp).1.deltaTime d) ∧
      (frame s inp).2.filter isPhaseCall =
        [glfwPollEvents] ++ moves ++ [cameraUpdate (frame s inp).1.deltaTime] ++
        [rendererPushRender Node.mainTorus, rendererPushRender Node.test,
         rendererPushRender Node.background] ++ [glfwSwapBuffers]) ∧
    (frame s inp).1.deltaTime = sub32 (toFloat inp.time) s.lastFrameTime ∧
    (frame s inp).1.lastFrameTime = toFloat inp.time ∧
    (∀ next : FrameInput, (frame (frame s inp).1 next).1.deltaTime =
      sub32 (toFloat next.time) (toFloat inp.time)) ∧
    State.init.lastFrameTime = FVal.fin 0 ∧
    (frame State.init inp).1.deltaTime = sub32 (toFloat inp.time) (FVal.fin 0) := by
  have hlast : ∀ (t : State) (i : FrameInput),
      (frame t i).1.deltaTime = sub32 (toFloat i.time) t.lastFrameTime ∧
      (frame t i).1.lastFrameTime = toFloat i.time := by
    intro t i
    have h := (dispatchAll_globals i.events t).1
    simp only [frame]
    split_ifs <;> simp [h]
  refine ⟨?_, ?_, ?_, (hlast s inp).1, (hlast s inp).2, ?_, rfl, (hlast State.init inp).1⟩
  · simp [frame]
  · have h : (frame s inp).2 = ([glfwPollEvents] ++ (dispatchAll s inp.events).2 ++
        [cellNewFrame, glClear (GL_COLOR_BUFFER_BIT ||| GL_DEPTH_BUFFER_BIT), glfwGetTime] ++
        cameraKeys (frame s inp).1.keysPressed (frame s inp).1.deltaTime ++
        [cameraUpdate (frame s inp).1.deltaTime] ++ animate inp ++ pushCommands ++
        [rendererRenderPushedCommands] ++ guiStep (frame s inp).1.renderGUI) ++
        [glfwSwapBuffers] := by
      simp only [frame]
      split_ifs <;> rfl
    rw [h, List.getLast?_append]
    rfl
  · refine ⟨cameraKeys (frame s inp).1.keysPressed (frame s inp).1.deltaTime,
      cameraKeys_args _ _, ?_⟩
    rw [filter_frame, filter_dispatchAll isPhaseCall callback_not_phase,
      filter_cameraKeys_phase, filter_guiStep_phase]
    simp [animate, pushCommands, isPhaseCall]
  · intro next
    rw [(hlast _ next).1, (hlast s inp).2]

/-- C5: on every run in which the window is created, `main` makes the three
`AddLight` calls, then the 51 `AddIrradianceProbe` calls of the probe grid,
then `BakeProbes` once, and only then runs the loop; nothing before the
lights and nothing inside the loop is an `AddLight`, `AddIrradianceProbe` or
`BakeProbes` call, and the sequence of those calls does not depend on the
environment. -/
theorem main_bakes_before_loop (env : Env) (h : env.windowCreated = true) :
    (main env).2 =
      (initGLFW ++ initWindow env ++ buildScene env) ++
      [rendererAddLight Light.dirLight, rendererAddLight Light.light,
       rendererAddLight Light.light2] ++
      probeGrid.map (fun p => rendererAddIrradianceProbe p.1 p.2) ++
      [rendererBakeProbes] ++
      (runLoop State.init env.frames).2 ++ [cellClean, glfwTerminate] ∧
    probeGrid.length = 51 ∧
    (initGLFW ++ initWindow env ++ buildScene env).filter isLightingCall = [] ∧
    (∀ (s : State) (frames : List FrameInput),
      (runLoop s frames).2.filter isLightingCall = []) ∧
    (main env).2.filter isLightingCall =
      [rendererAddLight Light.dirLight, rendererAddLight Light.light,
       rendererAddLight Light.light2] ++
      probeGrid.map (fun p => rendererAddIrradianceProbe p.1 p.2) ++
      [rendererBakeProbes] := by
  have hpre : (initGLFW ++ initWindow env ++ buildScene env).filter isLightingCall = [] := by
    simp [initGLFW, initWindow, buildScene, isLightingCall]
  have hmain : (main env).2 =
      (initGLFW ++ initWindow env ++ buildScene env) ++
      [rendererAddLight Light.dirLight, rendererAddLight Light.light,
       rendererAddLight Light.light2] ++
      probeGrid.map (fun p => rendererAddIrradianceProbe p.1 p.2) ++
      [rendererBakeProbes] ++
      (runLoop State.init env.frames).2 ++ [cellClean, glfwTerminate] := by
    simp [main, h, setup, addLights, bakeIrradiance]
  refine ⟨hmain, rfl, hpre, filter_runLoop_lighting, ?_⟩
  rw [hmain]
  simp only [List.filter_append, hpre, filter_runLoop_lighting, filter_probes_lighting]
  simp [isLightingCall]

/-- C9: in every frame `renderGUI` after the update step is its value before
the frame XOR `keysPressed[GLFW_KEY_TAB]` (as the key table stands after the
events of the frame); after `RenderPushedCommands` the frame sets the cursor
mode to `GLFW_CURSOR_NORMAL` and calls `Cell::RenderGUI` when the updated
value is true, and sets it to `GLFW_CURSOR_DISABLED` without calling
`Cell::RenderGUI` when it is false; these are its only such calls. -/
theorem frame_gui_toggle (s : State) (inp : FrameInput) :
    (frame s inp).1.renderGUI =
      xor s.renderGUI ((dispatchAll s inp.events).1.keysPressed GLFW_KEY_TAB) ∧
    (frame s inp).1.keysPressed = (dispatchAll s inp.events).1.keysPressed ∧
    (frame s inp).2.filter isGuiCall =
      (if (frame s inp).1.renderGUI = true
        then [glfwSetInputMode GLFW_CURSOR GLFW_CURSOR_NORMAL, cellRenderGUI]
        else [glfwSetInputMode GLFW_CURSOR GLFW_CURSOR_DISABLED]) ∧
    ∃ pre, pre.filter isGuiCall = [] ∧
      (frame s inp).2 = pre ++ [rendererRenderPushedCommands] ++
        (if (frame s inp).1.renderGUI = true
          then [glfwSetInputMode GLFW_CURSOR GLFW_CURSOR_NORMAL, cellRenderGUI]
          else [glfwSetInputMode GLFW_CURSOR GLFW_CURSOR_DISABLED]) ++
        [glfwSwapBuffers] := by
  have hgui := (dispatchAll_globals inp.events s).2.2
  have hcb := filter_dispatchAll isGuiCall callback_not_gui s inp.events
  have hstep : ∀ b : Bool, guiStep b =
      (if b = true then [glfwSetInputMode GLFW_CURSOR GLFW_CURSOR_NORMAL, cellRenderGUI]
        else [glfwSetInputMode GLFW_CURSOR GLFW_CURSOR_DISABLED]) := by
    intro b; cases b <;> rfl
  refine ⟨?_, ?_, ?_, ?_⟩
  · simp only [frame]
    split_ifs with ht <;> simp [ht, hgui]
  · simp only [frame]
    split_ifs <;> rfl
  · rw [filter_frame, hcb, filter_cameraKeys_gui, hstep]
    split_ifs <;> simp [animate, pushCommands, isGuiCall]
  · refine ⟨[glfwPollEvents] ++ (dispatchAll s inp.events).2 ++
        [cellNewFrame, glClear (GL_COLOR_BUFFER_BIT ||| GL_DEPTH_BUFFER_BIT), glfwGetTime] ++
        cameraKeys (frame s inp).1.keysPressed (frame s inp).1.deltaTime ++
        [cameraUpdate (frame s inp).1.deltaTime] ++ animate inp ++ pushCommands, ?_, ?_⟩
    · simp only [List.filter_append, hcb, filter_cameraKeys_gui]
      simp [animate, pushCommands, isGuiCall]
    · rw [← hstep]
      simp only [frame]
      split_ifs <;> rfl

/-- C8: `keyFunc` sets entry `key` of `keysPressed` to true on a press and to
false on a release when `0 ≤ key < 1024`, and leaves the table as it was in
every other case; no entry other than `key` ever changes, and every store
it performs has its index in `[0, 1024)`. -/
theorem keyFunc_key_table (s : State) (key scancode action mods : Int) :
    (0 ≤ key → key < 1024 → action = GLFW_PRESS →
      (keyFunc s key scancode action mods).1.keysPressed =
        Function.update s.keysPressed key true ∧
      (keyFunc s key scancode action mods).1.keysPressed key = true) ∧
    (0 ≤ key → key < 1024 → action = GLFW_RELEASE →
      (keyFunc s key scancode action mods).1.keysPressed =
        Function.update s.keysPressed key false ∧
      (keyFunc s key scancode action mods).1.keysPressed key = false) ∧
    (¬ (0 ≤ key ∧ key < 1024 ∧ (action = GLFW_PRESS ∨ action = GLFW_RELEASE)) →
      (keyFunc s key scancode action mods).1.keysPressed = s.keysPressed ∧
      (keyFunc s key scancode action mods).2.filter isKeyStore = []) ∧
    (∀ i : Int, i ≠ key →
      (keyFunc s key scancode action mods).1.keysPressed i = s.keysPressed i) ∧
    (∀ (i : Int) (v : Bool),
      keysPressedStore i v ∈ (keyFunc s key scancode action mods).2 →
        i = key ∧ 0 ≤ i ∧ i < 1024) := by
  refine ⟨?_, ?_, ?_, ?_, ?_⟩
  · intro h0 h1 ha
    simp [keyFunc, storeKey, h0, h1, ha]
  · intro h0 h1 ha
    have hne : GLFW_RELEASE ≠ GLFW_PRESS := by decide
    simp [keyFunc, storeKey, h0, h1, ha, hne]
  · intro h
    simp only [keyFunc, storeKey]
    split_ifs with h1 h2 h3
    · exact absurd ⟨h1.1, h1.2, Or.inl h2⟩ h
    · exact absurd ⟨h1.1, h1.2, Or.inr h3⟩ h
    · simp [isKeyStore]
    · simp [isKeyStore]
  · intro i hi
    simp only [keyFunc, storeKey]
    split_ifs <;> simp [Function.update, hi]
  · intro i v hmem
    simp only [keyFunc, storeKey] at hmem
    split_ifs at hmem with h1 h2 h3 <;> simp at hmem <;> omega

/-! ## Bounds on rounding -/

theorem ilog2_foldl_le (n : Nat) (l : List Nat) :
    ∀ k : Nat, 2 ^ k ≤ n →
      2 ^ (l.foldl (fun k s => if 2 ^ (k + s) ≤ n then k + s else k) k) ≤ n := by
  induction l with
  | nil => intro k hk; simpa using hk
  | cons s rest ih =>
      intro k hk
      simp only [List.foldl_cons]
      apply ih
      split_ifs with h
      · exact h
      · exact hk

/-- The leading-bit position found by `ilog2` is a lower bound. -/
theorem ilog2_le (n : Nat) (hn : 0 < n) : 2 ^ ilog2 n ≤ n := by
  unfold ilog2
  exact ilog2_foldl_le n _ 0 (by simpa using hn)

theorem roundMag_cases (p umin num den : Nat) :
    roundMag p umin num den =
      (num / (den * 2 ^ ulpExp p umin num den)) * 2 ^ ulpExp p umin num den ∨
    roundMag p umin num den =
      (num / (den * 2 ^ ulpExp p umin num den) + 1) * 2 ^ ulpExp p umin num den := by
  simp only [roundMag]
  split_ifs
  · exact Or.inr rfl
  · exact Or.inl rfl

theorem two_pow_ulpExp_le (p umin num den : Nat) (hp : 0 < p) :
    2 ^ ulpExp p umin num den ≤ max (num / den) (2 ^ umin) := by
  unfold ulpExp
  rcases Nat.le_total (ilog2 (num / den) + 1 - p) umin with h | h
  · rw [max_eq_right h]
    exact le_max_right _ _
  · rw [max_eq_left h]
    rcases Nat.eq_zero_or_pos (num / den) with h0 | hpos
    · have hz : ilog2 (num / den) + 1 - p = 0 := by
        rw [h0]
        have : ilog2 0 = 0 := by decide
        omega
      have : umin = 0 := by omega
      rw [hz, this]
      exact le_max_right _ _
    · have h1 : 2 ^ (ilog2 (num / den) + 1 - p) ≤ 2 ^ ilog2 (num / den) :=
        Nat.pow_le_pow_right (by norm_num) (by omega)
      exact le_trans (le_trans h1 (ilog2_le _ hpos)) (le_max_left _ _)

/-- Rounding overshoots the quotient by at most one unit in the last place. -/
theorem roundMag_le (p umin num den : Nat) (hp : 0 < p) :
    roundMag p umin num den ≤ num / den + max (num / den) (2 ^ umin) := by
  have hq : (num / (den * 2 ^ ulpExp p umin num den)) * 2 ^ ulpExp p umin num den ≤
      num / den := by
    rw [← Nat.div_div_eq_div_mul]
    exact Nat.div_mul_le_self _ _
  have hu := two_pow_ulpExp_le p umin num den hp
  rcases roundMag_cases p umin num den with h | h
  · rw [h]; omega
  · rw [h, Nat.add_mul, Nat.one_mul]; omega

/-- Rounding never goes below a power of two that the quotient reaches, from
`2^umin` upwards. -/
theorem le_roundMag (p umin num a : Nat) (hp : 0 < p) (ha : umin ≤ a) (hV : 2 ^ a ≤ num) :
    2 ^ a ≤ roundMag p umin num 1 := by
  have hpos : 0 < num := lt_of_lt_of_le (Nat.two_pow_pos _) hV
  have hfloor : ∀ u b : Nat, u ≤ b → 2 ^ b ≤ num → 2 ^ b ≤ (num / 2 ^ u) * 2 ^ u := by
    intro u b hub hb
    have hdiv : 2 ^ b = 2 ^ (b - u) * 2 ^ u := by
      rw [← Nat.pow_add]; congr 1; omega
    rw [hdiv]
    apply Nat.mul_le_mul_right
    rw [Nat.le_div_iff_mul_le (Nat.two_pow_pos _)]
    rw [← hdiv]; exact hb
  have hlow : 2 ^ a ≤ (num / (1 * 2 ^ ulpExp p umin num 1)) * 2 ^ ulpExp p umin num 1 := by
    rw [Nat.one_mul]
    rcases Nat.lt_or_ge a (ulpExp p umin num 1) with h | h
    · have hk : ulpExp p umin num 1 ≤ ilog2 num := by
        unfold ulpExp at h ⊢
        rw [Nat.div_one] at h ⊢
        rcases Nat.le_total (ilog2 num + 1 - p) umin with h2 | h2
        · rw [max_eq_right h2] at h
          omega
        · rw [max_eq_left h2]; omega
      have h2 := hfloor _ (ilog2 num) hk (ilog2_le num hpos)
      have h3 : 2 ^ a ≤ 2 ^ ilog2 num :=
        Nat.pow_le_pow_right (by norm_num) (le_trans (le_of_lt h) hk)
      exact le_trans h3 h2
    · exact hfloor _ a h hV
  rcases roundMag_cases p umin num 1 with h | h
  · rw [h]; exact hlow
  · rw [h]
    exact le_trans hlow (Nat.mul_le_mul_right _ (Nat.le_succ _))

theorem roundTo_natCast (p umin top num den : Nat) (h : roundMag p umin num den < 2 ^ top) :
    roundTo p umin top (num : Int) den = FVal.fin (roundMag p umin num den : Nat) := by
  have hneg : ¬ ((num : Int) < 0) := by omega
  simp only [roundTo, Int.natAbs_ofNat, hneg, if_false]
  rw [if_neg (by omega)]

/-- The conversion of an `int` in `[0, 2^31)` to `float` is finite and
non-negative, and at least `1` when the `int` is positive. -/
theorem intToFloat_bounds (i : Nat) (hi : i < 2 ^ 31) :
    ∃ m : Nat, intToFloat (i : Int) = FVal.fin (m : Int) ∧ m ≤ 2 ^ 1106 ∧
      (0 < i → unit ≤ m) := by
  have hV : i * unit < 2 ^ 1105 := by
    have : (2 : Nat) ^ 1105 = 2 ^ 31 * unit := by
      unfold unit; rw [← Nat.pow_add]
    rw [this]
    exact Nat.mul_lt_mul_of_pos_right hi (Nat.two_pow_pos _)
  have hle := roundMag_le 24 925 (i * unit) 1 (by norm_num)
  rw [Nat.div_one] at hle
  have h925 : (2 : Nat) ^ 925 ≤ 2 ^ 1105 := Nat.pow_le_pow_right (by norm_num) (by norm_num)
  have h1106 : (2 : Nat) ^ 1106 = 2 ^ 1105 + 2 ^ 1105 := by
    rw [Nat.pow_succ]; omega
  have h1202 : (2 : Nat) ^ 1106 < 2 ^ 1202 := Nat.pow_lt_pow_right (by norm_num) (by norm_num)
  have hm : roundMag 24 925 (i * unit) 1 ≤ 2 ^ 1106 := by
    have : max (i * unit) (2 ^ 925) ≤ 2 ^ 1105 := max_le (le_of_lt hV) h925
    omega
  refine ⟨roundMag 24 925 (i * unit) 1, ?_, hm, ?_⟩
  · have h := roundTo_natCast 24 925 1202 (i * unit) 1 (lt_of_le_of_lt hm h1202)
    unfold intToFloat round32
    rw [← h]; push_cast; rfl
  · intro hpos
    have : 2 ^ 1074 ≤ i * unit := by
      unfold unit
      exact Nat.le_mul_of_pos_left _ hpos
    exact le_roundMag 24 925 (i * unit) 1074 (by norm_num) (by norm_num) this

/-- The aspect ratio `(float)width / (float)height` of a framebuffer of
non-negative width and positive height is a finite non-negative number. -/
theorem aspect_finite (width height : Int) (hw : 0 ≤ width) (hh : 0 < height)
    (hw31 : width < 2 ^ 31) (hh31 : height < 2 ^ 31) :
    ∃ n : Int, 0 ≤ n ∧ div32 (intToFloat width) (intToFloat height) = FVal.fin n := by
  obtain ⟨w, rfl⟩ := Int.eq_ofNat_of_zero_le hw
  obtain ⟨h, rfl⟩ := Int.eq_ofNat_of_zero_le (le_of_lt hh)
  have hw' : w < 2 ^ 31 := by exact_mod_cast hw31
  have hh' : h < 2 ^ 31 := by exact_mod_cast hh31
  have hpos : 0 < h := by exact_mod_cast hh
  obtain ⟨a, ha, ha1, -⟩ := intToFloat_bounds w hw'
  obtain ⟨b, hb, -, hb1⟩ := intToFloat_bounds h hh'
  have hb2 := hb1 hpos
  have hupos : 0 < unit := Nat.two_pow_pos _
  have hbpos : 0 < b := lt_of_lt_of_le hupos hb2
  have hV : a * unit / b ≤ 2 ^ 1106 := by
    calc a * unit / b ≤ a * unit / unit := Nat.div_le_div_left hb2 hupos
      _ = a := Nat.mul_div_cancel _ hupos
      _ ≤ 2 ^ 1106 := ha1
  have hle := roundMag_le 24 925 (a * unit) b (by norm_num)
  have h925 : (2 : Nat) ^ 925 ≤ 2 ^ 1106 := Nat.pow_le_pow_right (by norm_num) (by norm_num)
  have h1107 : (2 : Nat) ^ 1107 = 2 ^ 1106 + 2 ^ 1106 := by
    rw [Nat.pow_succ]; omega
  have h1202 : (2 : Nat) ^ 1107 < 2 ^ 1202 := Nat.pow_lt_pow_right (by norm_num) (by norm_num)
  have hm : roundMag 24 925 (a * unit) b < 2 ^ 1202 := by
    have : max (a * unit / b) (2 ^ 925) ≤ 2 ^ 1106 := max_le hV h925
    omega
  refine ⟨(roundMag 24 925 (a * unit) b : Nat), by omega, ?_⟩
  rw [ha, hb]
  have hb0 : ¬ ((b : Int) = 0) := by omega
  have hsign : (b : Int).sign = 1 := Int.sign_eq_one_of_pos (by omega)
  simp only [div32, hb0, if_false, hsign, mul_one, Int.natAbs_ofNat]
  have h := roundTo_natCast 24 925 1202 (a * unit) b hm
  unfold round32
  rw [← h]; push_cast; rfl

/-! ## The floating point model on known values -/

theorem ilog2_foldl_spec (n : Nat) (l : List Nat) :
    ∀ k t : Nat, 2 ^ k ≤ n → n < 2 ^ (k + t) →
      List.Chain (fun a b => a = 2 * b) t l → (t :: l).getLast? = some 1 →
      2 ^ (l.foldl (fun k s => if 2 ^ (k + s) ≤ n then k + s else k) k) ≤ n ∧
      n < 2 ^ (l.foldl (fun k s => if 2 ^ (k + s) ≤ n then k + s else k) k + 1) := by
  induction l with
  | nil =>
      intro k t hk ht _ hlast
      have h1 : t = 1 := by simpa using hlast
      subst h1
      exact ⟨hk, ht⟩
  | cons s rest ih =>
      intro k t hk ht hchain hlast
      rw [List.chain_cons] at hchain
      obtain ⟨hts, hrest⟩ := hchain
      rw [List.getLast?_cons_cons] at hlast
      simp only [List.foldl_cons]
      apply ih _ s _ _ hrest hlast
      · split_ifs with h
        · exact h
        · exact hk
      · split_ifs with h
        · have : k + s + s = k + t := by omega
          rw [this]; exact ht
        · exact Nat.lt_of_not_le h

/-- Below `2^4096` the result of `ilog2` is the position of the leading bit:
`2^(ilog2 n) ≤ n < 2^(ilog2 n + 1)`. -/
theorem ilog2_spec (n : Nat) (hn : 0 < n) (hlt : n < 2 ^ 4096) :
    2 ^ ilog2 n ≤ n ∧ n < 2 ^ (ilog2 n + 1) := by
  unfold ilog2
  apply ilog2_foldl_spec n _ 0 4096 (by simpa using hn) (by simpa using hlt)
  · simp
  · rfl

/-- The model agrees with IEEE-754 on known conversions: `0.1f` is
`13421773 * 2^-27`, the `double` `640.1` is `5630379143515341 * 2^-43` and
narrows to the `float` `10487398 * 2^-14`, `2^24 + 1` and `2^24 + 3` round
to even, half-way to `2^128` overflows, and `2^-150` rounds to zero. -/
theorem rounding_samples :
    lit32 1 10 = dyadic 13421773 1047 ∧
    lit64 6401 10 = dyadic 5630379143515341 1031 ∧
    toFloat (lit64 6401 10) = dyadic 10487398 1060 ∧
    intToFloat 16777217 = dyadic 16777216 1074 ∧
    intToFloat 16777219 = dyadic 16777220 1074 ∧
    toFloat (dyadic (2 ^ 25 - 1) 1177) = FVal.inf false ∧
    toFloat (dyadic 1 924) = FVal.fin 0 ∧
    div32 (intToFloat 1280) (intToFloat 720) = dyadic 14913081 1051 := by
  decide

/-- For a first event at a finite position that `float` represents exactly,
the offset passed to the camera is `(0, 0)`. -/
theorem mousePosFunc_first_event_exact (s : State) (x y : Int)
    (hfirst : s.firstMouse = true) (hx : toFloat (FVal.fin x) = FVal.fin x)
    (hy : toFloat (FVal.fin y) = FVal.fin y) :
    (mousePosFunc s (FVal.fin x) (FVal.fin y)).2 =
      (if s.renderGUI = true then [] else [cameraInputMouse (FVal.fin 0) (FVal.fin 0)]) := by
  have hz : ∀ n : Int, toFloat (sub64 (FVal.fin n) (FVal.fin n)) = FVal.fin 0 := by
    intro n
    have h0 : round64 0 1 = FVal.fin 0 := by decide
    have h1 : toFloat (FVal.fin 0) = FVal.fin 0 := by decide
    simp only [sub64, subWith, sub_self, h0, h1]
  simp only [mousePosFunc, hfirst, if_true, hx, hy, hz]
  cases s.renderGUI <;> simp

/-- C6 (as amended): for every mouse-position event `mousePosFunc` calls
`camera.InputMouse` exactly once when `renderGUI` is false and makes no call
when it is true, and afterwards `lastX`, `lastY` hold `xpos`, `ypos`
narrowed to `float`; for every event but the first (`firstMouse` false) the
arguments of the call are `xpos - lastX` and `lastY - ypos`, with `lastX`,
`lastY` as stored by the previous event, narrowed to `float`. -/
theorem mousePosFunc_forwards_movement (s : State) (xpos ypos : FVal) :
    (s.firstMouse = false →
      (mousePosFunc s xpos ypos).2 =
        (if s.renderGUI = true then []
         else [cameraInputMouse (toFloat (sub64 xpos s.lastX))
                 (toFloat (sub64 s.lastY ypos))])) ∧
    (s.renderGUI = true → (mousePosFunc s xpos ypos).2 = []) ∧
    (s.renderGUI = false →
      ∃ xoffset yoffset, (mousePosFunc s xpos ypos).2 = [cameraInputMouse xoffset yoffset]) ∧
    (mousePosFunc s xpos ypos).1.lastX = toFloat xpos ∧
    (mousePosFunc s xpos ypos).1.lastY = toFloat ypos ∧
    (mousePosFunc s xpos ypos).1.renderGUI = s.renderGUI := by
  refine ⟨?_, ?_, ?_, ?_, ?_, ?_⟩
  · intro h
    simp only [mousePosFunc, h]
    split_ifs <;> simp_all
  · intro h
    simp only [mousePosFunc]
    split_ifs <;> simp_all
  · intro h
    simp only [mousePosFunc]
    split_ifs <;> simp_all
  · simp only [mousePosFunc]
  · simp only [mousePosFunc]
  · simp only [mousePosFunc]
    split_ifs <;> rfl

/-- C6, witness: after a first event at `(100, 100)`, an event at `(110, 90)`
is forwarded as the offset `(10, 10)`. -/
theorem mousePosFunc_forwards_movement_witness :
    (mousePosFunc sampleMoved (dyadic 110 1074) (dyadic 90 1074)).2 =
      [cameraInputMouse (dyadic 10 1074) (dyadic 10 1074)] := by
  rw [(mousePosFunc_forwards_movement sampleMoved (dyadic 110 1074) (dyadic 90 1074)).1
    (by rfl)]
  rfl

/-- C6, counterexample: on the first event, at `(100, 100)` with the stored
position `(640, 360)`, the call made is `camera.InputMouse(0, 0)`, not
`camera.InputMouse(100 - 640, 360 - 100)`. -/
theorem mousePosFunc_first_event_ignores_stored :
    State.init.renderGUI = false ∧
    State.init.lastX = dyadic 640 1074 ∧ State.init.lastY = dyadic 360 1074 ∧
    (mousePosFunc State.init (dyadic 100 1074) (dyadic 100 1074)).2 =
      [cameraInputMouse (FVal.fin 0) (FVal.fin 0)] ∧
    toFloat (sub64 (dyadic 100 1074) State.init.lastX) = dyadic (-540) 1074 ∧
    toFloat (sub64 State.init.lastY (dyadic 100 1074)) = dyadic 260 1074 ∧
    (mousePosFunc State.init (dyadic 100 1074) (dyadic 100 1074)).2 ≠
      [cameraInputMouse (toFloat (sub64 (dyadic 100 1074) State.init.lastX))
        (toFloat (sub64 State.init.lastY (dyadic 100 1074)))] := by
  have hx : toFloat (sub64 (dyadic 100 1074) State.init.lastX) = dyadic (-540) 1074 := by
    decide
  have hy : toFloat (sub64 State.init.lastY (dyadic 100 1074)) = dyadic 260 1074 := by
    decide
  have hcall : (mousePosFunc State.init (dyadic 100 1074) (dyadic 100 1074)).2 =
      [cameraInputMouse (FVal.fin 0) (FVal.fin 0)] := by rfl
  refine ⟨rfl, rfl, rfl, hcall, hx, hy, ?_⟩
  rw [hcall, hx, hy]
  intro h
  have h0 : FVal.fin 0 = dyadic (-540) 1074 := (cameraInputMouse.inj (List.cons.inj h).1).1
  exact absurd h0 (by decide)

/-- C10, at the failing input: the first event after start-up at
`(640.1, 360.0)` is forwarded as `camera.InputMouse(13421773 * 2^-39, 0)`,
whose first component is not zero, because `lastX` holds `640.1` narrowed to
`float` while `xpos` is the `double`. -/
theorem mousePosFunc_first_event_residue :
    State.init.firstMouse = true ∧ State.init.renderGUI = false ∧
    (mousePosFunc State.init (lit64 6401 10) (lit64 360 1)).2 =
      [cameraInputMouse (dyadic 13421773 1035) (FVal.fin 0)] ∧
    dyadic 13421773 1035 ≠ FVal.fin 0 ∧
    (mousePosFunc State.init (lit64 6401 10) (lit64 360 1)).1.firstMouse = false := by
  refine ⟨rfl, rfl, ?_, ?_, ?_⟩
  · rfl
  · decide
  · rfl

/-- C7: for every resize event with `width ≥ 0` and `height > 0`,
`framebufferSizeFunc` sets the render size to `(width, height)` and sets the
camera projection with aspect ratio `(float)width / (float)height`, a finite
non-negative number for `int` arguments, and with the field of view
`Deg2Rad(60)`, near plane `0.1f` and far plane `100.0f`, the same three
values as in the first `SetPerspective` call of `main`. -/
theorem framebufferSizeFunc_projection (s : State) (width height : Int)
    (hw : 0 ≤ width) (hh : 0 < height) :
    (framebufferSizeFunc s width height).2 =
      [rendererSetRenderSize width height,
       cameraSetPerspective (Angle.deg2Rad (lit32 60 1))
         (div32 (intToFloat width) (intToFloat height)) (lit32 1 10) (lit32 100 1)] ∧
    (width < 2 ^ 31 → height < 2 ^ 31 →
      ∃ n : Int, 0 ≤ n ∧ div32 (intToFloat width) (intToFloat height) = FVal.fin n) ∧
    (∀ env : Env, env.windowCreated = true →
      ((main env).2.filter isPerspectiveCall).head? =
        some (cameraSetPerspective (Angle.deg2Rad (lit32 60 1))
          (div32 env.renderSizeX env.renderSizeY) (lit32 1 10) (lit32 100 1))) := by
  refine ⟨rfl, aspect_finite width height hw hh, ?_⟩
  intro env h
  simp [main, h, setup, initGLFW, initWindow, buildScene, isPerspectiveCall]

/-- C7, witness: a resize to 1280 x 720 sets the render size to
`(1280, 720)` and the projection to 60 degrees, aspect `14913081 * 2^-23`
(the `float` nearest to 16/9), near `0.1f` and far `100`. -/
theorem framebufferSizeFunc_projection_witness :
    (framebufferSizeFunc State.init 1280 720).2 =
      [rendererSetRenderSize 1280 720,
       cameraSetPerspective (Angle.deg2Rad (dyadic 60 1074)) (dyadic 14913081 1051)
         (dyadic 13421773 1047) (dyadic 100 1074)] := by
  rw [(framebufferSizeFunc_projection State.init 1280 720 (by decide) (by decide)).1]
  rfl

/-- C1, witness: the run without a window returns `-1` and never calls
`Cell::Init`; the run with a window returns `0`. -/
theorem main_window_failure_witness :
    (main sampleEnvNoWindow).1 = -1 ∧ cellInit ∉ (main sampleEnvNoWindow).2 ∧
    (main sampleEnv).1 = 0 :=
  ⟨((main_window_failure sampleEnvNoWindow).1 rfl).1,
   ((main_window_failure sampleEnvNoWindow).1 rfl).2.2.2.2.1,
   (main_window_failure sampleEnv).2 rfl⟩

/-- C5, witness: in the sample run the lighting calls are the three lights,
the 51 probes and one `BakeProbes`. -/
theorem main_bakes_before_loop_witness :
    sampleEnv.windowCreated = true ∧
    ((main sampleEnv).2.filter isLightingCall).length = 3 + 51 + 1 := by
  refine ⟨rfl, ?_⟩
  rw [(main_bakes_before_loop sampleEnv rfl).2.2.2.2]
  rfl

/-- C8, witness: pressing W sets entry `GLFW_KEY_W`, releasing it clears the
entry, and a repeat of a key beyond the table stores nothing. -/
theorem keyFunc_key_table_witness :
    (keyFunc State.init GLFW_KEY_W 25 GLFW_PRESS 0).1.keysPressed GLFW_KEY_W = true ∧
    (keyFunc State.init GLFW_KEY_W 25 GLFW_RELEASE 0).1.keysPressed GLFW_KEY_W = false ∧
    (keyFunc State.init 2000 25 2 0).1.keysPressed = State.init.keysPressed :=
  ⟨((keyFunc_key_table State.init GLFW_KEY_W 25 GLFW_PRESS 0).1
      (by decide) (by decide) rfl).2,
   ((keyFunc_key_table State.init GLFW_KEY_W 25 GLFW_RELEASE 0).2.1
      (by decide) (by decide) rfl).2,
   ((keyFunc_key_table State.init 2000 25 2 0).2.2.1 (by decide)).1⟩

end CellDemo
